import Mathlib

/-!
Verification development for the inter-AS BGP route-leak simulation
(`InterAS_BGP`, the ns-3 exercise in the repository).

The embedding follows the source directly:

* `BgpRoute` mirrors `struct BgpRoute` (an `Ipv4Address` prefix, an
  `Ipv4Mask` represented by its prefix length, and the AS-path vector).
* `BgpSpeaker` mirrors `class BgpSpeaker`: AS number (`m_as`), node id
  (`m_node`), the fixed next hop supplied to `Initialize` (`m_nextHop`),
  the neighbor vector (`m_neighbors`), and the node's static routing
  table (`staticRoutes`, the `Ipv4StaticRouting` object reached through
  `m_ipv4`, which `InstallRoute` populates).
* `BgpSpeaker.Advertise` mirrors `BgpSpeaker::Advertise`, whose entire
  effect is two kinds of `NS_LOG_UNCOND` lines; the log output is
  modelled as structured `LogEvent` values.
* `BgpSpeaker.InstallRoute` mirrors `BgpSpeaker::InstallRoute`, which
  calls `Ipv4StaticRouting::AddNetworkRouteTo(net, mask, m_nextHop, 1)`:
  it appends one network-route entry (interface index 1, default
  metric 0) to the node's static routing table.
* `lookupStatic` models the route lookup of the ns-3 static routing
  table the source populates: among matching entries the longest mask
  wins, ties by smaller metric, and an exact tie is resolved in favor of
  the later entry.
* `fire` / `runPending` / `simAt` mirror `main`: the four
  `Simulator::Schedule` calls (t = 2 advertise+install, t = 3
  advertise+install, t = 10 route leak, t = 12 table dump) executed in
  time order by `Simulator::Run`; none of the scheduled lambdas
  schedules further events.

IPv4 addresses are 32-bit values represented as `Nat`.
-/

namespace InterAsBgp

/-- IPv4 address as its 32-bit numeric value, from dotted-quad octets. -/
def ipv4 (a b c d : Nat) : Nat := ((a * 256 + b) * 256 + c) * 256 + d

/-- Mirrors `struct BgpRoute`: destination prefix address, mask
(represented by its prefix length, e.g. 16 for `255.255.0.0`), and the
AS-path vector. -/
structure BgpRoute where
  pfx : Nat
  mask : Nat
  asPath : List Nat
deriving DecidableEq, Repr

/-- One entry of the ns-3 static routing table appended by
`AddNetworkRouteTo(net, mask, nextHop, 1)`: destination network, mask
length, next-hop address, outgoing interface index, and the default
metric 0. -/
structure StaticRouteEntry where
  dest : Nat
  maskLen : Nat
  nextHop : Nat
  ifIndex : Nat
  metric : Nat
deriving DecidableEq, Repr

/-- The `NS_LOG_UNCOND` lines the program prints, as structured events:
the advertisement header line of `Advertise`, its per-neighbor
"sent to AS" line, the route-leak notice of the t = 10 lambda, and the
routing-table dump header of the t = 12 lambda. -/
inductive LogEvent where
  | advertises (asn pfx maskLen : Nat)
  | sentTo (asn : Nat)
  | leakNotice
  | tableDump
deriving DecidableEq, Repr

/-- Mirrors `class BgpSpeaker` state: `m_as`, `m_node`, `m_nextHop`,
`m_neighbors`, and the node's static routing table reached through
`m_ipv4` (the state `InstallRoute` mutates). Defaults mirror the
default constructor (`m_as{0}`, empty containers). -/
structure BgpSpeaker where
  m_as : Nat := 0
  m_node : Nat := 0
  m_nextHop : Nat := 0
  m_neighbors : List Nat := []
  staticRoutes : List StaticRouteEntry := []
deriving DecidableEq, Repr

/-- Mirrors the `BgpSpeaker(uint32_t asn)` constructor. -/
def mkSpeaker (asn : Nat) : BgpSpeaker := { m_as := asn }

/-- Mirrors `BgpSpeaker::Initialize(n, nextHop)`: stores the node and
the fixed next-hop address (and thereby the node's routing table). -/
def BgpSpeaker.InitializeNode (s : BgpSpeaker) (n nextHop : Nat) : BgpSpeaker :=
  { s with m_node := n, m_nextHop := nextHop }

/-- Mirrors `BgpSpeaker::AddNeighbor(asn)`: `m_neighbors.push_back(asn)`
(a plain vector append, no deduplication). -/
def BgpSpeaker.AddNeighbor (s : BgpSpeaker) (asn : Nat) : BgpSpeaker :=
  { s with m_neighbors := s.m_neighbors ++ [asn] }

/-- Mirrors `BgpSpeaker::Advertise(r)`: logs the advertisement header
and one "sent to AS n" line per element of `m_neighbors`, in order.
The speaker state is untouched (the route is taken by const reference
and never written); the function returns the unchanged state together
with the emitted log lines. -/
def BgpSpeaker.Advertise (s : BgpSpeaker) (r : BgpRoute) :
    BgpSpeaker × List LogEvent :=
  (s, LogEvent.advertises s.m_as r.pfx r.mask :: s.m_neighbors.map LogEvent.sentTo)

/-- Mirrors `BgpSpeaker::InstallRoute(net, mask)`: appends the entry
`(net, mask, m_nextHop, interface 1, metric 0)` to the node's static
routing table via `AddNetworkRouteTo`. -/
def BgpSpeaker.InstallRoute (s : BgpSpeaker) (net maskLen : Nat) : BgpSpeaker :=
  { s with staticRoutes := s.staticRoutes ++ [⟨net, maskLen, s.m_nextHop, 1, 0⟩] }

/-- Models `Ipv4Mask::IsMatch` for a mask of the given prefix length:
the two addresses agree on their top `len` bits. -/
def maskMatch (len dest net : Nat) : Bool :=
  dest / 2 ^ (32 - len) == net / 2 ^ (32 - len)

/-- One candidate step of the ns-3 static-route lookup: a matching
entry replaces the current best when its mask is longer, or when masks
are equal and its metric is not larger (so an exact tie keeps the later
entry, as in `Ipv4StaticRouting::LookupStatic`). -/
def lookupStep (dest : Nat) (best : Option StaticRouteEntry)
    (e : StaticRouteEntry) : Option StaticRouteEntry :=
  if maskMatch e.maskLen dest e.dest then
    match best with
    | none => some e
    | some b =>
      if e.maskLen < b.maskLen then some b
      else if b.maskLen < e.maskLen then some e
      else if b.metric < e.metric then some b
      else some e
  else best

/-- Models the route lookup of the ns-3 static routing table that
`InstallRoute` populates. -/
def lookupStatic (routes : List StaticRouteEntry) (dest : Nat) :
    Option StaticRouteEntry :=
  routes.foldl (lookupStep dest) none

/-! ### The driver scenario of `main` -/

/-- The route of the t = 2 lambda: `10.1.0.0/16`, path `{65001}`. -/
def routeA : BgpRoute := ⟨ipv4 10 1 0 0, 16, [65001]⟩

/-- The route of the t = 3 lambda: `10.2.0.0/16`, path `{65002}`. -/
def routeB : BgpRoute := ⟨ipv4 10 2 0 0, 16, [65002]⟩

/-- `as65001` after the setup lines of `main`: constructed with
AS 65001, initialized on node 0 with next hop `10.1.1.2`, neighbor
65002 registered. -/
def as65001 : BgpSpeaker :=
  ((mkSpeaker 65001).InitializeNode 0 (ipv4 10 1 1 2)).AddNeighbor 65002

/-- `as65002` after the setup lines of `main`: constructed with
AS 65002, initialized on node 3 with next hop `10.2.1.2`, neighbor
65001 registered. -/
def as65002 : BgpSpeaker :=
  ((mkSpeaker 65002).InitializeNode 3 (ipv4 10 2 1 2)).AddNeighbor 65001

/-- The four lambdas `main` passes to `Simulator::Schedule`. -/
inductive EvKind where
  | advertiseA
  | advertiseB
  | routeLeak
  | dumpTables
deriving DecidableEq, Repr

/-- A scheduled event: firing time and which lambda runs. -/
structure Ev where
  time : Nat
  kind : EvKind
deriving DecidableEq, Repr

/-- Simulation state: the two speakers, the accumulated log, the
pending event queue, and the current simulated time. -/
structure Sim where
  asA : BgpSpeaker
  asB : BgpSpeaker
  log : List LogEvent
  pending : List Ev
  now : Nat
deriving DecidableEq, Repr

/-- Fires one scheduled lambda of `main`. The t = 2 lambda advertises
`routeA` at `as65001` and installs it at `as65002`; the t = 3 lambda is
the symmetric one; the t = 10 lambda logs the leak notice and installs
`10.1.0.0/16` at `as65002` again; the t = 12 lambda logs the
routing-table dump header. No lambda schedules further events. -/
def fire (k : EvKind) (s : Sim) : Sim :=
  match k with
  | EvKind.advertiseA =>
      let p := BgpSpeaker.Advertise s.asA routeA
      { s with asA := p.1,
               asB := BgpSpeaker.InstallRoute s.asB routeA.pfx routeA.mask,
               log := s.log ++ p.2 }
  | EvKind.advertiseB =>
      let p := BgpSpeaker.Advertise s.asB routeB
      { s with asB := p.1,
               asA := BgpSpeaker.InstallRoute s.asA routeB.pfx routeB.mask,
               log := s.log ++ p.2 }
  | EvKind.routeLeak =>
      { s with asB := BgpSpeaker.InstallRoute s.asB (ipv4 10 1 0 0) 16,
               log := s.log ++ [LogEvent.leakNotice] }
  | EvKind.dumpTables =>
      { s with log := s.log ++ [LogEvent.tableDump] }

/-- The event queue `main` builds, in scheduling (= time) order. -/
def schedule0 : List Ev :=
  [⟨2, EvKind.advertiseA⟩, ⟨3, EvKind.advertiseB⟩,
   ⟨10, EvKind.routeLeak⟩, ⟨12, EvKind.dumpTables⟩]

/-- The state right before `Simulator::Run`. -/
def sim0 : Sim :=
  { asA := as65001, asB := as65002, log := [], pending := schedule0, now := 0 }

/-- Runs the pending queue, firing every event with time at most `t`
in order (the queue is time-sorted and no fired lambda schedules
anything, mirroring `Simulator::Run` on this program). -/
def runPending (t : Nat) : List Ev → Sim → Sim
  | [], s => { s with pending := [] }
  | e :: rest, s =>
      if e.time ≤ t then
        runPending t rest (fire e.kind { s with now := e.time })
      else { s with pending := e :: rest }

/-- The simulation state once every event scheduled at or before `t`
has fired. -/
def simAt (t : Nat) : Sim := runPending t schedule0 sim0

/-- The route `as65002`'s routing table selects for destination
`10.1.0.0` (the `Select(10.1.0.0/16)` of the spec) at time `t`. -/
def selB (t : Nat) : Option StaticRouteEntry :=
  lookupStatic (simAt t).asB.staticRoutes (ipv4 10 1 0 0)

/-- The advertisement header lines a given AS printed, out of a log. -/
def advertisesOf (asn : Nat) (l : List LogEvent) : List LogEvent :=
  l.filter (fun e =>
    match e with
    | LogEvent.advertises a _ _ => a == asn
    | _ => false)

/-- Recognizes a per-neighbor "sent to AS" log line. -/
def isSentTo : LogEvent → Bool
  | LogEvent.sentTo _ => true
  | _ => false

end InterAsBgp

namespace InterAsBgp

/-! ### Helper lemmas shared by the claim theorems -/

theorem count_sentTo_map (l : List Nat) (a : Nat) :
    (l.map LogEvent.sentTo).count (LogEvent.sentTo a) = l.count a := by
  induction l with
  | nil => rfl
  | cons x xs ih =>
      simp [List.count_cons, ih]

theorem filter_isSentTo_map (l : List Nat) :
    (l.map LogEvent.sentTo).filter isSentTo = l.map LogEvent.sentTo := by
  induction l with
  | nil => rfl
  | cons x xs ih =>
      simp [isSentTo, ih]

end InterAsBgp

namespace InterAsBgp

/-! ### Claim theorems -/

/-- C1 counterexample: the claim asserts that after the t = 10 leak
event the route `as65002` selects for `10.1.0.0/16` differs from the
route it held before the leak (installed at t = 2). In the code the
leak installs an entry identical to the t = 2 one, so the selected
route after the leak (queried at t = 12) is exactly the selected route
before it (queried at t = 4): the two are equal, not different. -/
theorem C1_counterexample_selected_route_unchanged_by_leak :
    selB 12 = selB 4
    ∧ selB 4 = some ⟨ipv4 10 1 0 0, 16, ipv4 10 2 1 2, 1, 0⟩ := by
  constructor
  · rfl
  · rfl

/-- C1 amended: the t = 10 leak appends to `as65002`'s table a second
entry identical to the t = 2 one, so the selected route for
`10.1.0.0/16` is unchanged; the prefix is nevertheless one `as65002`
never originates (its only advertisement in the whole run is for
`10.2.0.0/16`), so the duplicate entry is for a prefix the speaker does
not legitimately own. -/
theorem C1_amended_leak_installs_identical_duplicate :
    (simAt 9).asB.staticRoutes = [⟨ipv4 10 1 0 0, 16, ipv4 10 2 1 2, 1, 0⟩]
    ∧ (simAt 12).asB.staticRoutes
        = [⟨ipv4 10 1 0 0, 16, ipv4 10 2 1 2, 1, 0⟩,
           ⟨ipv4 10 1 0 0, 16, ipv4 10 2 1 2, 1, 0⟩]
    ∧ selB 12 = selB 9
    ∧ advertisesOf 65002 (simAt 12).log
        = [LogEvent.advertises 65002 (ipv4 10 2 0 0) 16] := by
  refine ⟨rfl, rfl, rfl, ?_⟩
  rfl

/-- Addresses assigned inside AS-A's domain by the addressing section
of `main`: link d01 (`10.1.1.0/24`, nodes 0 and 1) and link d02
(`10.1.2.0/24`, nodes 0 and 2). -/
def asA_domainAddrs : List Nat :=
  [ipv4 10 1 1 1, ipv4 10 1 1 2, ipv4 10 1 2 1, ipv4 10 1 2 2]

/-- C2 counterexample: the claim asserts that at t = 4 `as65002`'s
table selects `10.1.0.0/16` "via A with path [A]". The selected entry
at t = 4 has next hop `10.2.1.2` — `as65002`'s own fixed internal next
hop (node 4), not any address of AS-A's domain — and a static-route
entry carries no AS path at all, so it cannot record path [65001]. -/
theorem C2_counterexample_route_not_via_A :
    selB 4 = some ⟨ipv4 10 1 0 0, 16, ipv4 10 2 1 2, 1, 0⟩
    ∧ ipv4 10 2 1 2 ∉ asA_domainAddrs := by
  constructor
  · rfl
  · decide

/-- C2 amended: at t = 4 `as65002`'s table holds exactly one static
entry for `10.1.0.0/16`, with next hop `10.2.1.2` (the fixed address
supplied to its `Initialize`) and interface 1, and `as65001`'s table
holds exactly one entry for `10.2.0.0/16` with next hop `10.1.1.2` and
interface 1; neither entry stores an AS path. The paths [65001] and
[65002] appear only in the advertisement log lines of t = 2 and t = 3. -/
theorem C2_amended_tables_at_t4 :
    (simAt 4).asB.staticRoutes = [⟨ipv4 10 1 0 0, 16, ipv4 10 2 1 2, 1, 0⟩]
    ∧ (simAt 4).asA.staticRoutes = [⟨ipv4 10 2 0 0, 16, ipv4 10 1 1 2, 1, 0⟩]
    ∧ (simAt 4).log
        = [LogEvent.advertises 65001 (ipv4 10 1 0 0) 16, LogEvent.sentTo 65002,
           LogEvent.advertises 65002 (ipv4 10 2 0 0) 16, LogEvent.sentTo 65001] := by
  refine ⟨rfl, rfl, rfl⟩

/-- C3 counterexample: the claim asserts `Advertise(r)` records `r` as
the locally originated best route for `r.pfx` in the speaker's route
table. At the concrete speaker `as65001` (as set up by `main`) and the
concrete route `routeA`, `Advertise` leaves the speaker — its routing
table included — completely unchanged, and a lookup of `routeA.pfx`
afterwards still finds no route at all; nothing was recorded, and no
modified route (with an appended path) exists anywhere in the result. -/
theorem C3_counterexample_advertise_records_nothing :
    (BgpSpeaker.Advertise as65001 routeA).1 = as65001
    ∧ lookupStatic (BgpSpeaker.Advertise as65001 routeA).1.staticRoutes
        routeA.pfx = none := by
  exact ⟨rfl, rfl⟩

/-- C3 amended: `Advertise(r)` only logs: it returns the speaker state
unchanged and emits the advertisement header followed by one
"sent to AS" line per neighbor; it records nothing in any route table
and never modifies `r.asPath` (the route is taken by const reference). -/
theorem C3_amended_advertise_only_logs (s : BgpSpeaker) (r : BgpRoute) :
    (BgpSpeaker.Advertise s r).1 = s
    ∧ (BgpSpeaker.Advertise s r).2
        = LogEvent.advertises s.m_as r.pfx r.mask
            :: s.m_neighbors.map LogEvent.sentTo := by
  exact ⟨rfl, rfl⟩

/-- C4 counterexample: the claim asserts each per-neighbor emission of
`Advertise` is scheduled as a `Receive` event at the current simulated
time. When the t = 2 event fires, `as65001.Advertise` emits exactly one
per-neighbor line (to AS 65002), yet the pending event queue afterwards
is exactly the remaining driver schedule — every pending event has time
strictly greater than 2, so no event at all (let alone a `Receive`) was
scheduled at the current time; indeed no `Receive` operation exists in
the program. -/
theorem C4_counterexample_advertise_schedules_nothing :
    (simAt 2).log
      = [LogEvent.advertises 65001 (ipv4 10 1 0 0) 16, LogEvent.sentTo 65002]
    ∧ (simAt 2).pending
        = [⟨3, EvKind.advertiseB⟩, ⟨10, EvKind.routeLeak⟩,
           ⟨12, EvKind.dumpTables⟩]
    ∧ (simAt 2).pending.all (fun e => decide (2 < e.time)) = true := by
  refine ⟨rfl, rfl, ?_⟩
  rfl

/-- C4 amended: `Advertise` emits exactly one advertisement — a
synchronous log line — per occurrence of a neighbor in `m_neighbors`,
and schedules no events: after the t = 2 advertisement the pending
queue holds only the three remaining driver events. -/
theorem C4_amended_one_log_emission_per_neighbor (s : BgpSpeaker) (r : BgpRoute) :
    ((BgpSpeaker.Advertise s r).2.filter isSentTo)
      = s.m_neighbors.map LogEvent.sentTo
    ∧ (simAt 2).pending
        = [⟨3, EvKind.advertiseB⟩, ⟨10, EvKind.routeLeak⟩,
           ⟨12, EvKind.dumpTables⟩] := by
  constructor
  · show ((LogEvent.advertises s.m_as r.pfx r.mask
        :: s.m_neighbors.map LogEvent.sentTo).filter isSentTo)
      = s.m_neighbors.map LogEvent.sentTo
    rw [List.filter_cons]
    simp [isSentTo, filter_isSentTo_map]
  · rfl

/-- C8: `InstallRoute(net, mask)` installs a static route whose next
hop is exactly the fixed address supplied to the speaker's `Initialize`
and whose interface index is 1, for every prefix and mask — the call
receives no path and no origin AS, so the entry cannot depend on them —
and in the driver run the leaked entry of t = 10 is identical (same
prefix, mask, next hop, interface, metric) to the legitimate entry of
t = 2. -/
theorem C8_installRoute_fixed_nextHop_and_identical_leak :
    (∀ (s : BgpSpeaker) (n nh net maskLen : Nat),
        (BgpSpeaker.InstallRoute (BgpSpeaker.InitializeNode s n nh)
            net maskLen).staticRoutes
          = s.staticRoutes ++ [⟨net, maskLen, nh, 1, 0⟩])
    ∧ (simAt 2).asB.staticRoutes = [⟨ipv4 10 1 0 0, 16, ipv4 10 2 1 2, 1, 0⟩]
    ∧ (simAt 12).asB.staticRoutes
        = [⟨ipv4 10 1 0 0, 16, ipv4 10 2 1 2, 1, 0⟩,
           ⟨ipv4 10 1 0 0, 16, ipv4 10 2 1 2, 1, 0⟩] := by
  refine ⟨fun s n nh net maskLen => rfl, rfl, rfl⟩

/-- C9: `AddNeighbor` does not deduplicate — two `AddNeighbor a` calls
append `a` twice to the neighbor vector — and a subsequent `Advertise`
emits one "sent to AS" line per recorded occurrence: the count of
emissions to `a` equals the occurrence count of `a` in the vector,
which the two calls raised by two (twice, not once as for a set). -/
theorem C9_addNeighbor_no_dedup (s : BgpSpeaker) (a : Nat) (r : BgpRoute) :
    ((s.AddNeighbor a).AddNeighbor a).m_neighbors = s.m_neighbors ++ [a, a]
    ∧ (BgpSpeaker.Advertise ((s.AddNeighbor a).AddNeighbor a) r).2.count
        (LogEvent.sentTo a)
      = s.m_neighbors.count a + 2 := by
  constructor
  · simp [BgpSpeaker.AddNeighbor]
  · show (LogEvent.advertises s.m_as r.pfx r.mask
        :: ((s.m_neighbors ++ [a]) ++ [a]).map LogEvent.sentTo).count
        (LogEvent.sentTo a) = s.m_neighbors.count a + 2
    rw [List.count_cons, count_sentTo_map]
    simp [List.count_append]

/-- C10: `Advertise` is state-preserving — it returns the speaker with
every field (AS number, node, next hop, neighbor vector, routing table)
unchanged, and the route argument is never written — and among the
speaker operations only `InstallRoute` touches the forwarding state:
`AddNeighbor` and `Initialize` leave `staticRoutes` as they found it,
while `InstallRoute` appends exactly its one entry. -/
theorem C10_advertise_state_preserving
    (s : BgpSpeaker) (r : BgpRoute) (a n nh net maskLen : Nat) :
    (BgpSpeaker.Advertise s r).1 = s
    ∧ (s.AddNeighbor a).staticRoutes = s.staticRoutes
    ∧ (BgpSpeaker.InitializeNode s n nh).staticRoutes = s.staticRoutes
    ∧ (s.InstallRoute net maskLen).staticRoutes
        = s.staticRoutes ++ [⟨net, maskLen, s.m_nextHop, 1, 0⟩] := by
  exact ⟨rfl, rfl, rfl, rfl⟩

end InterAsBgp
